import Mathlib

/-!
Shallow embedding of the S_bot sniper core (PriceMonitor, AutoSellEngine,
SwapService, SniperEngine, MintWatcher) and proofs about the frozen claims.

Numeric decimal strings of the source (prices, amounts, percentages) are
modelled by their exact rational values; the inputs used in concrete
theorems are chosen so that the JavaScript double computations on them are
exact, hence the rational model agrees with the source on those inputs.
Asynchronous RPC results (router quotes, transaction submission, receipts)
are modelled as explicit oracle inputs: a value of type Except String
represents a call that either returned or threw, and Option models a
null-able result.
-/

namespace SBot

/-- Lowercasing of an address string, modelling the JavaScript
toLowerCase() calls used to normalize token addresses (character-wise
lowering, which agrees with toLowerCase() on ASCII hex addresses). -/
def lowerString (s : String) : String :=
  ⟨s.data.map Char.toLower⟩

/-- Order type of a limit order, from the sniper types module (part_009). -/
inductive OrderType
  | take_profit
  | stop_loss
deriving DecidableEq, Repr

/-- Status of a limit order, from the sniper types module (part_009). -/
inductive OrderStatus
  | pending
  | executed
  | cancelled
  | failed
deriving DecidableEq, Repr

/-- Status of a token position, from the sniper types module (part_009). -/
inductive PositionStatus
  | holding
  | sold
  | failed
deriving DecidableEq, Repr

/-- LimitOrder record, from the sniper types module (part_009). -/
structure LimitOrder where
  id : String
  tokenAddress : String
  orderType : OrderType
  targetPricePLS : ℚ
  amountTokens : ℚ
  slippagePercent : ℚ
  createdAt : ℕ
  executedAt : Option ℕ := none
  transactionHash : Option String := none
  status : OrderStatus
deriving DecidableEq, Repr

/-- TokenPosition record, from the sniper types module (part_009). -/
structure TokenPosition where
  tokenAddress : String
  tokenSymbol : String
  tokenName : String
  buyTransactionHash : String
  buyTimestamp : ℕ
  buyPricePLS : ℚ
  amountTokens : ℚ
  currentPricePLS : Option ℚ := none
  profitLossPercent : Option ℚ := none
  sellTransactionHash : Option String := none
  sellTimestamp : Option ℕ := none
  sellPricePLS : Option ℚ := none
  status : PositionStatus
deriving DecidableEq, Repr

/-- SniperConfig record, from the sniper types module (part_009). -/
structure SniperConfig where
  autoBuyEnabled : Bool
  buyAmountPLS : ℚ
  slippagePercent : ℚ
  gasLimitMultiplier : ℚ
  gasPriceGwei : Option String := none
  autoSellEnabled : Bool
  takeProfitPercent : Option ℚ := none
  stopLossPercent : Option ℚ := none
  minBuyEnabled : Bool
  minBuyCount : Option ℕ := none
deriving DecidableEq, Repr

/-- Default configuration, from src/config/sniper.ts (DEFAULT_SNIPER_CONFIG):
slippagePercent 10, gasLimitMultiplier 1.2, takeProfitPercent 100,
stopLossPercent 50. -/
def DEFAULT_SNIPER_CONFIG : SniperConfig :=
  { autoBuyEnabled := false
    buyAmountPLS := 100
    slippagePercent := 10
    gasLimitMultiplier := 6 / 5
    gasPriceGwei := none
    autoSellEnabled := false
    takeProfitPercent := some 100
    stopLossPercent := some 50
    minBuyEnabled := false
    minBuyCount := some 1 }

/-- Partial configuration update, modelling Partial of SniperConfig in
SniperEngine.updateConfig; a field holding some v means the key is present
in the update object. -/
structure PartialSniperConfig where
  autoBuyEnabled : Option Bool := none
  buyAmountPLS : Option ℚ := none
  slippagePercent : Option ℚ := none
  gasLimitMultiplier : Option ℚ := none
  gasPriceGwei : Option (Option String) := none
  autoSellEnabled : Option Bool := none
  takeProfitPercent : Option (Option ℚ) := none
  stopLossPercent : Option (Option ℚ) := none
  minBuyEnabled : Option Bool := none
  minBuyCount : Option (Option ℕ) := none
deriving DecidableEq, Repr

/-- Embedding of SniperEngine.updateConfig (sniper-engine.ts lines 246-249):
a plain object-spread merge of the update over the current config, with no
validation or clamping of any field. -/
def updateConfig (cfg : SniperConfig) (u : PartialSniperConfig) : SniperConfig :=
  { autoBuyEnabled := u.autoBuyEnabled.getD cfg.autoBuyEnabled
    buyAmountPLS := u.buyAmountPLS.getD cfg.buyAmountPLS
    slippagePercent := u.slippagePercent.getD cfg.slippagePercent
    gasLimitMultiplier := u.gasLimitMultiplier.getD cfg.gasLimitMultiplier
    gasPriceGwei := u.gasPriceGwei.getD cfg.gasPriceGwei
    autoSellEnabled := u.autoSellEnabled.getD cfg.autoSellEnabled
    takeProfitPercent := u.takeProfitPercent.getD cfg.takeProfitPercent
    stopLossPercent := u.stopLossPercent.getD cfg.stopLossPercent
    minBuyEnabled := u.minBuyEnabled.getD cfg.minBuyEnabled
    minBuyCount := u.minBuyCount.getD cfg.minBuyCount }

/-- Configuration invariant claimed by the spec (section 3): slippagePercent
in [0,100) and gasLimitMultiplier at least 1. -/
def ConfigInvariant (cfg : SniperConfig) : Prop :=
  0 ≤ cfg.slippagePercent ∧ cfg.slippagePercent < 100 ∧ 1 ≤ cfg.gasLimitMultiplier

instance (cfg : SniperConfig) : Decidable (ConfigInvariant cfg) := by
  unfold ConfigInvariant; infer_instance

/-! PriceMonitor (part_000). -/

/-- Embedding of PriceMonitor.getPrice (part_000 lines 112-136). The whole
body sits in a try/catch whose catch branch returns the string 0; the
successful router quote is modelled by the oracle argument, none meaning
any provider or router failure (decimals call, getAmountsOut call). -/
def getPrice (quote : Option ℚ) : ℚ :=
  match quote with
  | some pricePLS => pricePLS
  | none => 0

/-- Firing test of PriceMonitor.checkLimitOrders (part_000 lines 188-200):
take_profit fires when currentPrice is at least targetPrice, stop_loss
fires when currentPrice is at most targetPrice. -/
def shouldTrigger (order : LimitOrder) (currentPrice : ℚ) : Bool :=
  match order.orderType with
  | OrderType.take_profit => decide (order.targetPricePLS ≤ currentPrice)
  | OrderType.stop_loss => decide (currentPrice ≤ order.targetPricePLS)

/-- Filter of PriceMonitor.checkLimitOrders (part_000 lines 184-186): the
order matches the checked token (case-insensitive address comparison) and
is still pending. -/
def matchesPendingFor (order : LimitOrder) (tokenAddress : String) : Bool :=
  lowerString order.tokenAddress == lowerString tokenAddress
    && order.status == OrderStatus.pending

/-- Per-order update of PriceMonitor.checkLimitOrders (part_000 lines
202-219): a triggered order is stored back with status executed and
executedAt set to the current time; an untriggered order is untouched. -/
def processOrder (order : LimitOrder) (currentPrice : ℚ) (now : ℕ) : LimitOrder :=
  if shouldTrigger order currentPrice then
    { order with status := OrderStatus.executed, executedAt := some now }
  else order

/-- Embedding of PriceMonitor.checkLimitOrders (part_000 lines 183-221) as
the transformation of the limit-order map values on one tick for one token
at one current price. -/
def checkLimitOrders (orders : List LimitOrder) (tokenAddress : String)
    (currentPrice : ℚ) (now : ℕ) : List LimitOrder :=
  orders.map fun o =>
    if matchesPendingFor o tokenAddress then processOrder o currentPrice now else o

/-! AutoSellEngine (auto-sell-engine.ts). -/

/-- Take-profit target of AutoSellEngine.createAutoLimitOrders
(auto-sell-engine.ts line 123): buyPrice * (1 + takeProfitPercent / 100). -/
def takeProfitTarget (buyPrice takeProfitPercent : ℚ) : ℚ :=
  buyPrice * (1 + takeProfitPercent / 100)

/-- Stop-loss target of AutoSellEngine.createAutoLimitOrders
(auto-sell-engine.ts line 141): buyPrice * (1 - stopLossPercent / 100). -/
def stopLossTarget (buyPrice stopLossPercent : ℚ) : ℚ :=
  buyPrice * (1 - stopLossPercent / 100)

/-- Order construction of AutoSellEngine.createLimitOrder
(auto-sell-engine.ts lines 91-100). -/
def mkLimitOrder (tokenAddress : String) (orderType : OrderType)
    (targetPricePLS amountTokens slippagePercent : ℚ) (now : ℕ) : LimitOrder :=
  { id := tokenAddress ++ "-" ++
      (match orderType with
       | OrderType.take_profit => "take_profit"
       | OrderType.stop_loss => "stop_loss") ++ "-" ++ toString now
    tokenAddress := tokenAddress
    orderType := orderType
    targetPricePLS := targetPricePLS
    amountTokens := amountTokens
    slippagePercent := slippagePercent
    createdAt := now
    status := OrderStatus.pending }

/-- Embedding of AutoSellEngine.createAutoLimitOrders (auto-sell-engine.ts
lines 112-156), returning the list of orders registered for the position.
The JavaScript truthiness guards on the percent fields mean an absent or
zero percentage creates no order of that kind. -/
def createAutoLimitOrders (cfg : SniperConfig) (position : TokenPosition)
    (now : ℕ) : List LimitOrder :=
  if cfg.autoSellEnabled = false then []
  else
    (match cfg.takeProfitPercent with
     | some tp =>
       if tp = 0 then []
       else [mkLimitOrder position.tokenAddress OrderType.take_profit
         (takeProfitTarget position.buyPricePLS tp) position.amountTokens
         cfg.slippagePercent now]
     | none => []) ++
    (match cfg.stopLossPercent with
     | some sl =>
       if sl = 0 then []
       else [mkLimitOrder position.tokenAddress OrderType.stop_loss
         (stopLossTarget position.buyPricePLS sl) position.amountTokens
         cfg.slippagePercent now]
     | none => [])

/-! SwapService (part_001). -/

/-- Basis points as the code computes them (part_001 lines 66 and 151):
BigInt(Math.floor(slippagePercent * 100)). -/
def slippageBasisPoints (slippagePercent : ℚ) : ℤ :=
  ⌊slippagePercent * 100⌋

/-- Minimum output with slippage as the code computes it (part_001 lines
67 and 152, identical on the buy and the sell path): expectedOut *
(10000 - basisPoints) / 10000 in BigInt arithmetic, whose division
truncates toward zero. -/
def minAmountOut (expectedOut : ℤ) (slippagePercent : ℚ) : ℤ :=
  (expectedOut * (10000 - slippageBasisPoints slippagePercent)).tdiv 10000

/-- Modelled from the spec: basis points as the spec words them (section
4.2), round(slippagePercent * 100) — written for comparison with the
source computation slippageBasisPoints, which floors instead. -/
def specBasisPoints (slippagePercent : ℚ) : ℤ :=
  round (slippagePercent * 100)

/-- Modelled from the spec: the minimum-output formula exactly as the spec
and claim C6 word it, q * (10000 - round(s*100)) / 10000, for comparison
with the source computation minAmountOut. -/
def specMinAmountOut (expectedOut : ℤ) (slippagePercent : ℚ) : ℤ :=
  (expectedOut * (10000 - specBasisPoints slippagePercent)).tdiv 10000

/-! SniperEngine (sniper-engine.ts) and its position map. -/

/-- Transaction receipt as SniperEngine reads it: only the status field is
consulted (1 means success). -/
structure TxReceipt where
  status : ℕ
deriving DecidableEq, Repr

/-- Result type of SniperEngine.executeSnipe, from the sniper types module
(part_009). -/
structure SnipeResult where
  success : Bool
  tokenAddress : String
  transactionHash : Option String := none
  amountSpentPLS : Option ℚ := none
  amountReceived : Option ℚ := none
  error : Option String := none
  timestamp : ℕ
deriving DecidableEq, Repr

/-- Embedding of the JavaScript Map.set used for the SniperEngine position
map (sniper-engine.ts line 155 and 233): replace in place when the key
exists, append otherwise. -/
def setPosition (positions : List (String × TokenPosition)) (key : String)
    (position : TokenPosition) : List (String × TokenPosition) :=
  if positions.any fun kv => kv.1 == key then
    positions.map fun kv => if kv.1 == key then (key, position) else kv
  else positions ++ [(key, position)]

/-- Embedding of the JavaScript Map.get used for the SniperEngine position
map (sniper-engine.ts line 204 and 269). -/
def getPos (positions : List (String × TokenPosition)) (key : String) :
    Option TokenPosition :=
  (positions.find? fun kv => kv.1 == key).map Prod.snd

/-- Lookup of PortfolioService.getPosition (portfolio-service.ts lines
42-44): the portfolio map is keyed by the lowercased token address. -/
def pfGetPosition (pf : List (String × TokenPosition)) (tokenAddress : String) :
    Option TokenPosition :=
  getPos pf (lowerString tokenAddress)

/-- Embedding of PortfolioService.updatePosition (portfolio-service.ts
lines 30-37): when a position exists under the lowercased key, merge the
updates over it (the AutoSellEngine passes the whole mutated position
object, so the merge replaces the record); when none exists, do nothing. -/
def pfUpdatePosition (pf : List (String × TokenPosition)) (tokenAddress : String)
    (position : TokenPosition) : List (String × TokenPosition) :=
  match pfGetPosition pf tokenAddress with
  | some _ => setPosition pf (lowerString tokenAddress) position
  | none => pf

/-- Oracle describing the environment outcomes observed by one
executeSnipe call: the best-effort metadata lookup (none meaning the
lookup threw and the placeholder metadata is used), the buy-transaction
submission, the awaited receipt (ok none models a null receipt), and the
token-balance read. -/
structure SnipeEnv where
  tokenInfo : Option (String × String)
  buyTx : Except String String
  receipt : Except String (Option TxReceipt)
  tokenBalance : Except String ℚ
deriving Repr

/-- Failure result of executeSnipe (sniper-engine.ts lines 181-186). -/
def snipeFailure (tokenAddress : String) (timestamp : ℕ) (msg : String) :
    SnipeResult :=
  { success := false
    tokenAddress := tokenAddress
    error := some msg
    timestamp := timestamp }

/-- Embedding of SniperEngine.executeSnipe (sniper-engine.ts lines 99-194),
returning the SnipeResult and the position map after the call. Every
failure path runs through the catch block, which builds a failure result
and leaves the position map untouched; a submitted buy whose receipt is
null or reports a status other than 1 throws Transaction failed
(lines 136-138); the position is stored only after a successful receipt
and balance read (lines 144-155). -/
def executeSnipe (swapInitialized : Bool) (cfg : SniperConfig) (env : SnipeEnv)
    (positions : List (String × TokenPosition)) (tokenAddress : String)
    (timestamp : ℕ) : SnipeResult × List (String × TokenPosition) :=
  if swapInitialized = false then
    (snipeFailure tokenAddress timestamp "Swap service not initialized", positions)
  else
    match env.buyTx with
    | Except.error e => (snipeFailure tokenAddress timestamp e, positions)
    | Except.ok txHash =>
      match env.receipt with
      | Except.error e => (snipeFailure tokenAddress timestamp e, positions)
      | Except.ok receiptOpt =>
        match receiptOpt with
        | none => (snipeFailure tokenAddress timestamp "Transaction failed", positions)
        | some receipt =>
          if receipt.status ≠ 1 then
            (snipeFailure tokenAddress timestamp "Transaction failed", positions)
          else
            match env.tokenBalance with
            | Except.error e => (snipeFailure tokenAddress timestamp e, positions)
            | Except.ok tokenBalance =>
              let position : TokenPosition :=
                { tokenAddress := tokenAddress
                  tokenSymbol := (env.tokenInfo.map Prod.fst).getD "UNKNOWN"
                  tokenName := (env.tokenInfo.map Prod.snd).getD "Unknown Token"
                  buyTransactionHash := txHash
                  buyTimestamp := timestamp
                  buyPricePLS := cfg.buyAmountPLS
                  amountTokens := tokenBalance
                  status := PositionStatus.holding }
              ({ success := true
                 tokenAddress := tokenAddress
                 transactionHash := some txHash
                 amountSpentPLS := some cfg.buyAmountPLS
                 amountReceived := some tokenBalance
                 timestamp := timestamp },
               setPosition positions tokenAddress position)

/-- Oracle describing the environment outcomes observed by one sellToken
call: the sell-transaction submission (sellTokenForPLS, including the
approval step) and the awaited receipt. -/
structure SellEnv where
  sellTx : Except String String
  receipt : Except String (Option TxReceipt)
deriving Repr

/-- Embedding of SniperEngine.sellToken (sniper-engine.ts lines 199-241),
returning either the thrown error or the transaction hash together with
the position map after the call. The function has no try/catch: thrown
errors propagate to the caller. The position is updated to sold — with
the sell hash and timestamp, and nothing else — only when a receipt is
present with status 1 and a stored position exists (lines 227-238); in
particular a submitted sell whose receipt reports failure returns the
transaction response normally, without updating the position. -/
def sellToken (swapInitialized : Bool)
    (positions : List (String × TokenPosition)) (env : SellEnv)
    (tokenAddress : String) (amount : Option ℚ) (now : ℕ) :
    Except String (String × List (String × TokenPosition)) :=
  if swapInitialized = false then Except.error "Swap service not initialized"
  else
    let positionOpt := getPos positions tokenAddress
    let amountToSell : Option ℚ :=
      match amount with
      | some a => some a
      | none => positionOpt.map TokenPosition.amountTokens
    match amountToSell with
    | none => Except.error "No position found for token"
    | some _ =>
      match env.sellTx with
      | Except.error e => Except.error e
      | Except.ok txHash =>
        match env.receipt with
        | Except.error e => Except.error e
        | Except.ok receiptOpt =>
          match receiptOpt, positionOpt with
          | some receipt, some position =>
            if receipt.status = 1 then
              Except.ok (txHash, setPosition positions tokenAddress
                { position with
                    status := PositionStatus.sold
                    sellTransactionHash := some txHash
                    sellTimestamp := some now })
            else Except.ok (txHash, positions)
          | _, _ => Except.ok (txHash, positions)

/-- Embedding of AutoSellEngine.executeLimitOrder (auto-sell-engine.ts
lines 161-218), returning the order after the call together with the
SniperEngine position map and the portfolio map. The try block looks the
position up in the portfolio, awaits sellToken, and then unconditionally
marks the order executed and the portfolio position sold with the
profit/loss computed from the tick price — whatever the sell receipt said;
the catch block, reached only when the lookup or sellToken throws, marks
the order failed and touches neither map. -/
def executeLimitOrder (swapInitialized : Bool)
    (enginePositions pf : List (String × TokenPosition)) (env : SellEnv)
    (order : LimitOrder) (currentPrice : ℚ) (now : ℕ) :
    LimitOrder × List (String × TokenPosition) × List (String × TokenPosition) :=
  let failedOrder : LimitOrder :=
    { order with status := OrderStatus.failed, executedAt := some now }
  match pfGetPosition pf order.tokenAddress with
  | none => (failedOrder, enginePositions, pf)
  | some position =>
    match sellToken swapInitialized enginePositions env order.tokenAddress
        (some order.amountTokens) now with
    | Except.error _ => (failedOrder, enginePositions, pf)
    | Except.ok (txHash, enginePositions1) =>
      let order1 : LimitOrder :=
        { order with
            transactionHash := some txHash
            executedAt := some now
            status := OrderStatus.executed }
      let position1 : TokenPosition :=
        { position with
            sellPricePLS := some currentPrice
            sellTimestamp := some now
            sellTransactionHash := some txHash
            status := PositionStatus.sold
            profitLossPercent :=
              some ((currentPrice - position.buyPricePLS) / position.buyPricePLS * 100) }
      (order1, enginePositions1, pfUpdatePosition pf order.tokenAddress position1)

/-! MintWatcher (part_002). -/

/-- MintEvent record, from src/types/mint-events.ts as consumed by the
watcher. -/
structure MintEvent where
  token : String
  toAddr : String
  amount : ℕ
  blockNumber : ℕ
  transactionHash : String
  timestamp : ℕ
  logIndex : ℕ
deriving DecidableEq, Repr

/-- Stable insertion step for the descending block-number sort: the new
element is placed before the first element whose block number is strictly
smaller, so elements with equal keys keep their original relative order,
as the stable JavaScript Array sort does with the comparator
(a, b) => b.blockNumber - a.blockNumber. -/
def insertByBlockDesc (a : MintEvent) : List MintEvent → List MintEvent
  | [] => [a]
  | b :: bs =>
    if b.blockNumber < a.blockNumber then a :: b :: bs
    else b :: insertByBlockDesc a bs

/-- Stable sort by descending block number. -/
def sortByBlockDesc : List MintEvent → List MintEvent
  | [] => []
  | a :: as => insertByBlockDesc a (sortByBlockDesc as)

/-- Embedding of MintWatcher.getRecentMints (part_002 lines 273-319) on the
already-parsed logs of the backfill range: the mints are returned sorted by
block number, newest first (line 318, comparator (a, b) => b.blockNumber -
a.blockNumber under the stable Array sort). -/
def getRecentMints (logs : List MintEvent) : List MintEvent :=
  sortByBlockDesc logs

/-- Observable state of a MintWatcher: the isListening flag and the number
of live polling loops that have been set up (setupNetworkWideListener,
part_002 lines 194-268, installs one per successful start). -/
structure MintWatcherState where
  isListening : Bool
  pollLoops : ℕ
deriving DecidableEq, Repr

/-- Embedding of MintWatcher.startListening (part_002 lines 53-107) on the
network-wide path, returning the state after the call and the list of
events delivered to the callback, in delivery order. A call on a state
that is already listening logs a warning and returns normally at once
(lines 59-62): no error is thrown, no event is delivered, and no second
polling loop is registered. Otherwise the historical backfill (when
requested) delivers the getRecentMints list in order before the live
polling loop starts; the live events follow in the order the provider
yields them. The Except wrapper marks where a thrown error would travel:
no branch of the function produces one. -/
def startListening (st : MintWatcherState)
    (historicalLogs liveEvents : List MintEvent) (includeHistorical : Bool) :
    Except String (MintWatcherState × List MintEvent) :=
  if st.isListening then Except.ok (st, [])
  else
    Except.ok
      ({ isListening := true, pollLoops := st.pollLoops + 1 },
       (if includeHistorical then getRecentMints historicalLogs else []) ++ liveEvents)

/-! Trace of a fired limit order through the monitor/exit loop, for the
temporal claim about order status versus sell progress. -/

/-- Progress of the delegated sell at an observation point. -/
inductive SellPhase
  | notSubmitted
  | submitted
  | confirmedOk
  | confirmedFail
  | failedError
deriving DecidableEq, Repr

/-- Outcome of the delegated sell attempt: the attempt throws (submission
or await failure), or the transaction is submitted and its receipt reports
failure, or it is submitted and confirmed successfully. -/
inductive SellOutcome
  | throws
  | revertedReceipt (txHash : String)
  | confirmed (txHash : String)
deriving DecidableEq, Repr

/-- SellEnv oracle corresponding to a sell outcome. -/
def outcomeEnv : SellOutcome → SellEnv
  | SellOutcome.throws =>
    { sellTx := Except.error "SubmissionFailed", receipt := Except.error "unreached" }
  | SellOutcome.revertedReceipt h =>
    { sellTx := Except.ok h, receipt := Except.ok (some { status := 0 }) }
  | SellOutcome.confirmed h =>
    { sellTx := Except.ok h, receipt := Except.ok (some { status := 1 }) }

/-- Sell phase at the final observation point of an outcome. -/
def outcomePhase : SellOutcome → SellPhase
  | SellOutcome.throws => SellPhase.failedError
  | SellOutcome.revertedReceipt _ => SellPhase.confirmedFail
  | SellOutcome.confirmed _ => SellPhase.confirmedOk

/-- Trace of (order status, sell phase) observation points for one order
that fires on a tick, derived from the source control flow. The monitor
invokes the trigger callback (part_000 lines 211-213); the asynchronous
AutoSellEngine.executeLimitOrder runs only as far as its awaited sell call
and suspends before the transaction is submitted, so control returns to
checkLimitOrders, which stores the order back with status executed
(part_000 lines 216-218) while the sell is still unsubmitted — the second
observation point, computed by processOrder. For an outcome that gets past
submission the stored status stays executed while the sell is in flight
(third point). The final point carries the order status produced by the
executeLimitOrder continuation for the outcome. -/
def firedOrderTrace (swapInitialized : Bool)
    (enginePositions pf : List (String × TokenPosition))
    (order : LimitOrder) (currentPrice : ℚ) (now : ℕ) (outcome : SellOutcome) :
    List (OrderStatus × SellPhase) :=
  let fired := processOrder order currentPrice now
  [(order.status, SellPhase.notSubmitted),
   (fired.status, SellPhase.notSubmitted)] ++
  (match outcome with
   | SellOutcome.throws => []
   | _ => [(fired.status, SellPhase.submitted)]) ++
  [((executeLimitOrder swapInitialized enginePositions pf (outcomeEnv outcome)
       fired currentPrice now).1.status,
    outcomePhase outcome)]

/-! Stage-failure predicate and concrete sample data used by the
theorems. -/

/-- Test that a modelled call threw. -/
def exceptThrew {α : Type} : Except String α → Bool
  | Except.error _ => true
  | Except.ok _ => false

/-- Test that the awaited buy receipt does not certify success: the await
threw, or the receipt is null, or its status is not 1 (sniper-engine.ts
line 136). -/
def receiptNotOk : Except String (Option TxReceipt) → Bool
  | Except.error _ => true
  | Except.ok none => true
  | Except.ok (some r) => decide (r.status ≠ 1)

/-- A stage of executeSnipe after the optional metadata lookup fails: the
swap service is uninitialized, the buy submission throws, the receipt does
not certify success, or the balance read throws. -/
def snipeStageFails (swapInitialized : Bool) (env : SnipeEnv) : Bool :=
  !swapInitialized || exceptThrew env.buyTx || receiptNotOk env.receipt
    || exceptThrew env.tokenBalance

/-- Sample holding position: bought for 100 PLS, 1000 tokens. -/
def samplePosition : TokenPosition :=
  { tokenAddress := "0xTok"
    tokenSymbol := "TOK"
    tokenName := "Token"
    buyTransactionHash := "0xbuy"
    buyTimestamp := 1
    buyPricePLS := 100
    amountTokens := 1000
    status := PositionStatus.holding }

/-- Sample pending take-profit order at target 200, as created from
buyPricePLS 100 with takeProfitPercent 100. -/
def sampleTPOrder : LimitOrder :=
  { id := "0xTok-take_profit-2"
    tokenAddress := "0xTok"
    orderType := OrderType.take_profit
    targetPricePLS := 200
    amountTokens := 1000
    slippagePercent := 10
    createdAt := 2
    status := OrderStatus.pending }

/-- Sample pending stop-loss order at target 50, as created from
buyPricePLS 100 with stopLossPercent 50. -/
def sampleSLOrder : LimitOrder :=
  { id := "0xTok-stop_loss-2"
    tokenAddress := "0xTok"
    orderType := OrderType.stop_loss
    targetPricePLS := 50
    amountTokens := 1000
    slippagePercent := 10
    createdAt := 2
    status := OrderStatus.pending }

/-- Sample fired take-profit order: sampleTPOrder as stored back by the
monitor after a tick at price 200 (status executed, executedAt 7). -/
def sampleFiredTPOrder : LimitOrder :=
  processOrder sampleTPOrder 200 7

/-- Snipe environment in which the buy transaction is submitted but its
receipt reports failure. -/
def revertedBuyEnv : SnipeEnv :=
  { tokenInfo := some ("TOK", "Token")
    buyTx := Except.ok "0xbuy"
    receipt := Except.ok (some { status := 0 })
    tokenBalance := Except.ok 1000 }

/-- Sell environment in which the sell transaction is submitted and its
receipt confirms success. -/
def confirmedSellEnv : SellEnv :=
  { sellTx := Except.ok "0xsell"
    receipt := Except.ok (some { status := 1 }) }

/-- Sell environment in which the sell transaction is submitted but its
receipt reports failure. -/
def revertedSellEnv : SellEnv :=
  { sellTx := Except.ok "0xsell"
    receipt := Except.ok (some { status := 0 }) }

/-- Mint event at a given block, with the other fields fixed. -/
def mintAtBlock (n : ℕ) : MintEvent :=
  { token := "0xA"
    toAddr := "0xW"
    amount := 1
    blockNumber := n
    transactionHash := "0xt"
    timestamp := 0
    logIndex := 0 }

/-- Configuration update that sets only slippagePercent, to 150. -/
def overSlippageUpdate : PartialSniperConfig :=
  { slippagePercent := some 150 }

/-- Configuration update that sets only slippagePercent, to 20. -/
def modestSlippageUpdate : PartialSniperConfig :=
  { slippagePercent := some 20 }

/-! Theorems. -/

/-- C6 counterexample: the code computes basis points with floor, the
claim says round; at slippage 0.125 percent (exactly representable, so
the double computation in the source is exact) and quote 10000 the code
yields 9988 while the claimed formula yields 9987. -/
theorem C6_counterexample :
    minAmountOut 10000 (1 / 8) ≠ specMinAmountOut 10000 (1 / 8) ∧
    minAmountOut 10000 (1 / 8) = 9988 ∧
    specMinAmountOut 10000 (1 / 8) = 9987 := by
  have h1 : slippageBasisPoints (1 / 8) = 12 := by
    unfold slippageBasisPoints; norm_num
  have h2 : specBasisPoints (1 / 8) = 13 := by
    unfold specBasisPoints; rw [round_eq]; norm_num
  have e1 : minAmountOut 10000 (1 / 8) = 9988 := by
    unfold minAmountOut; rw [h1]; decide
  have e2 : specMinAmountOut 10000 (1 / 8) = 9987 := by
    unfold specMinAmountOut; rw [h2]; decide
  exact ⟨by rw [e1, e2]; decide, e1, e2⟩

/-- C6 amended: both swap paths compute minOut = q * (10000 -
floor(s*100)) / 10000 in exact integer arithmetic (floor, not round); for
a non-negative quote this is monotonically non-increasing in s on [0,100)
and equals q exactly at s = 0. -/
theorem C6_amended (q : ℤ) (s1 s2 : ℚ)
    (hq : 0 ≤ q) (h0 : 0 ≤ s1) (h12 : s1 ≤ s2) (h2 : s2 < 100) :
    minAmountOut q s2 ≤ minAmountOut q s1 ∧ minAmountOut q 0 = q := by
  have hb0 : (0 : ℤ) ≤ ⌊s1 * 100⌋ := by
    apply Int.floor_nonneg.mpr; positivity
  have hb12 : ⌊s1 * 100⌋ ≤ ⌊s2 * 100⌋ := by
    apply Int.floor_le_floor
    nlinarith
  have hb2 : ⌊s2 * 100⌋ < 10000 := by
    apply Int.floor_lt.mpr
    push_cast
    nlinarith
  constructor
  · unfold minAmountOut slippageBasisPoints
    have hn2 : (0 : ℤ) ≤ q * (10000 - ⌊s2 * 100⌋) := by
      apply mul_nonneg hq; omega
    have hn1 : (0 : ℤ) ≤ q * (10000 - ⌊s1 * 100⌋) := by
      apply mul_nonneg hq; omega
    rw [Int.tdiv_eq_ediv hn2 (by norm_num), Int.tdiv_eq_ediv hn1 (by norm_num)]
    apply Int.ediv_le_ediv (by norm_num)
    apply mul_le_mul_of_nonneg_left _ hq
    omega
  · unfold minAmountOut slippageBasisPoints
    have hz : ⌊(0 : ℚ) * 100⌋ = 0 := by norm_num
    rw [hz]
    rw [Int.tdiv_eq_ediv (by positivity) (by norm_num)]
    norm_num

/-- C6 amended witness at q = 10000, s1 = 0, s2 = 1/8. -/
theorem C6_amended_witness :
    minAmountOut 10000 (1 / 8) ≤ minAmountOut 10000 0 ∧
    minAmountOut 10000 0 = 10000 :=
  C6_amended 10000 0 (1 / 8) (by norm_num) (by norm_num) (by norm_num) (by norm_num)

/-- C8 counterexample: a second startListening on a watcher that is
already listening returns normally (ok, with the state unchanged and no
delivery) instead of failing with an AlreadyListening error. -/
theorem C8_counterexample :
    startListening { isListening := true, pollLoops := 1 } [mintAtBlock 5] [] true =
      Except.ok ({ isListening := true, pollLoops := 1 }, []) := by
  rfl

/-- C8 amended: a second startListening without an intervening
stopListening logs a warning and returns normally without raising; it
delivers nothing and registers no second set of listeners or polling
loops — the watcher state is unchanged. -/
theorem C8_amended (st : MintWatcherState) (historicalLogs liveEvents : List MintEvent)
    (includeHistorical : Bool) (h : st.isListening = true) :
    startListening st historicalLogs liveEvents includeHistorical = Except.ok (st, []) := by
  simp [startListening, h]

/-- C8 amended witness on a listening watcher with one polling loop. -/
theorem C8_amended_witness :
    startListening { isListening := true, pollLoops := 1 }
        [mintAtBlock 5] [mintAtBlock 6] true =
      Except.ok ({ isListening := true, pollLoops := 1 }, []) :=
  C8_amended { isListening := true, pollLoops := 1 } [mintAtBlock 5] [mintAtBlock 6] true rfl

/-- C9 counterexample: the invariant holds for the default configuration,
but updateConfig validates nothing, so the update that sets
slippagePercent to 150 produces a configuration violating it. -/
theorem C9_counterexample :
    ConfigInvariant DEFAULT_SNIPER_CONFIG ∧
    ¬ ConfigInvariant (updateConfig DEFAULT_SNIPER_CONFIG overSlippageUpdate) := by
  constructor
  · refine ⟨?_, ?_, ?_⟩ <;> norm_num [DEFAULT_SNIPER_CONFIG]
  · intro h
    obtain ⟨-, h2, -⟩ := h
    norm_num [updateConfig, DEFAULT_SNIPER_CONFIG, overSlippageUpdate] at h2

/-- C9 amended: the invariant holds for the default (initial)
configuration, and updateConfig — which merges without validation —
preserves it exactly when the fields provided by the update themselves
satisfy the bounds. -/
theorem C9_amended (cfg : SniperConfig) (u : PartialSniperConfig)
    (hc : ConfigInvariant cfg)
    (hs : ∀ s, u.slippagePercent = some s → 0 ≤ s ∧ s < 100)
    (hg : ∀ g, u.gasLimitMultiplier = some g → 1 ≤ g) :
    ConfigInvariant DEFAULT_SNIPER_CONFIG ∧
    ConfigInvariant (updateConfig cfg u) := by
  obtain ⟨h1, h2, h3⟩ := hc
  refine ⟨⟨by norm_num [DEFAULT_SNIPER_CONFIG], by norm_num [DEFAULT_SNIPER_CONFIG],
    by norm_num [DEFAULT_SNIPER_CONFIG]⟩, ?_, ?_, ?_⟩
  · cases hsl : u.slippagePercent with
    | none => simpa [updateConfig, hsl] using h1
    | some s => simpa [updateConfig, hsl] using (hs s hsl).1
  · cases hsl : u.slippagePercent with
    | none => simpa [updateConfig, hsl] using h2
    | some s => simpa [updateConfig, hsl] using (hs s hsl).2
  · cases hgl : u.gasLimitMultiplier with
    | none => simpa [updateConfig, hgl] using h3
    | some g => simpa [updateConfig, hgl] using hg g hgl

/-- C9 amended witness: updating the default configuration with
slippagePercent 20 keeps the invariant. -/
theorem C9_amended_witness :
    ConfigInvariant DEFAULT_SNIPER_CONFIG ∧
    ConfigInvariant (updateConfig DEFAULT_SNIPER_CONFIG modestSlippageUpdate) :=
  C9_amended DEFAULT_SNIPER_CONFIG modestSlippageUpdate
    ⟨by norm_num [DEFAULT_SNIPER_CONFIG], by norm_num [DEFAULT_SNIPER_CONFIG],
     by norm_num [DEFAULT_SNIPER_CONFIG]⟩
    (by intro s hsl; cases hsl; norm_num [modestSlippageUpdate] at *)
    (by intro g hgl; simp [modestSlippageUpdate] at hgl)

/-- Helper: membership through the stable descending insertion. -/
theorem mem_insertByBlockDesc {x a : MintEvent} {l : List MintEvent} :
    x ∈ insertByBlockDesc a l ↔ x = a ∨ x ∈ l := by
  induction l with
  | nil => simp [insertByBlockDesc]
  | cons b bs ih =>
    by_cases hb : b.blockNumber < a.blockNumber
    · simp [insertByBlockDesc, hb]
    · simp [insertByBlockDesc, hb, ih]
      tauto

/-- Helper: the descending insertion preserves descending sortedness. -/
theorem sorted_insertByBlockDesc (a : MintEvent) (l : List MintEvent)
    (h : List.Sorted (fun x y => y.blockNumber ≤ x.blockNumber) l) :
    List.Sorted (fun x y => y.blockNumber ≤ x.blockNumber) (insertByBlockDesc a l) := by
  induction l with
  | nil => simp [insertByBlockDesc]
  | cons b bs ih =>
    rw [List.sorted_cons] at h
    obtain ⟨hball, hbs⟩ := h
    by_cases hb : b.blockNumber < a.blockNumber
    · rw [insertByBlockDesc, if_pos hb, List.sorted_cons]
      refine ⟨?_, ?_⟩
      · intro x hx
        rcases List.mem_cons.mp hx with hxb | hxs
        · subst hxb; exact le_of_lt hb
        · exact le_trans (hball x hxs) (le_of_lt hb)
      · rw [List.sorted_cons]
        exact ⟨hball, hbs⟩
    · rw [insertByBlockDesc, if_neg hb, List.sorted_cons]
      refine ⟨?_, ih hbs⟩
      intro x hx
      rcases mem_insertByBlockDesc.mp hx with hxa | hxs
      · subst hxa; exact Nat.le_of_not_lt hb
      · exact hball x hxs

/-- Helper: the descending sort is sorted by non-increasing block
number. -/
theorem sorted_sortByBlockDesc (l : List MintEvent) :
    List.Sorted (fun x y => y.blockNumber ≤ x.blockNumber) (sortByBlockDesc l) := by
  induction l with
  | nil => simp [sortByBlockDesc]
  | cons a as ih => exact sorted_insertByBlockDesc a _ ih

/-- C4 counterexample: a historical backfill containing blocks 5 and 9 is
delivered as [9, 5] — newest first — so the delivered block numbers are
not in non-decreasing order. -/
theorem C4_counterexample :
    startListening { isListening := false, pollLoops := 0 }
        [mintAtBlock 5, mintAtBlock 9] [] true =
      Except.ok ({ isListening := true, pollLoops := 1 },
        [mintAtBlock 9, mintAtBlock 5]) ∧
    ¬ List.Sorted (· ≤ ·) ([mintAtBlock 9, mintAtBlock 5].map MintEvent.blockNumber) := by
  constructor
  · rfl
  · decide

/-- C4 amended: with includeHistorical, every historical event of the
backfill is delivered in NON-INCREASING (newest-first) block-number
order, and all historical events are delivered before any live event. -/
theorem C4_amended (st : MintWatcherState) (historicalLogs liveEvents : List MintEvent)
    (h : st.isListening = false) :
    startListening st historicalLogs liveEvents true =
      Except.ok ({ isListening := true, pollLoops := st.pollLoops + 1 },
        getRecentMints historicalLogs ++ liveEvents) ∧
    List.Sorted (fun x y => y.blockNumber ≤ x.blockNumber)
      (getRecentMints historicalLogs) := by
  refine ⟨?_, sorted_sortByBlockDesc historicalLogs⟩
  simp [startListening, h, getRecentMints]

/-- C4 amended witness on backfill blocks 5, 9 and one live event. -/
theorem C4_amended_witness :
    startListening { isListening := false, pollLoops := 0 }
        [mintAtBlock 5, mintAtBlock 9] [mintAtBlock 11] true =
      Except.ok ({ isListening := true, pollLoops := 0 + 1 },
        getRecentMints [mintAtBlock 5, mintAtBlock 9] ++ [mintAtBlock 11]) ∧
    List.Sorted (fun x y => y.blockNumber ≤ x.blockNumber)
      (getRecentMints [mintAtBlock 5, mintAtBlock 9]) :=
  C4_amended { isListening := false, pollLoops := 0 }
    [mintAtBlock 5, mintAtBlock 9] [mintAtBlock 11] rfl

/-- C2: whenever a stage of executeSnipe after the optional metadata
lookup fails — the swap service is uninitialized, the buy submission
throws, the awaited receipt throws, is null or reports a status other
than 1, or the balance read throws — the call returns a SnipeResult with
success false and an error message, and the position map is returned
exactly as it was: no TokenPosition is created or modified. -/
theorem C2_failed_snipe_no_mutation
    (swapInitialized : Bool) (cfg : SniperConfig) (env : SnipeEnv)
    (positions : List (String × TokenPosition)) (tokenAddress : String) (timestamp : ℕ)
    (h : snipeStageFails swapInitialized env = true) :
    (executeSnipe swapInitialized cfg env positions tokenAddress timestamp).1.success = false ∧
    ((executeSnipe swapInitialized cfg env positions tokenAddress timestamp).1.error).isSome = true ∧
    (executeSnipe swapInitialized cfg env positions tokenAddress timestamp).2 = positions := by
  obtain ⟨ti, btx, rc, tb⟩ := env
  cases swapInitialized with
  | false => simp [executeSnipe, snipeFailure]
  | true =>
    cases btx with
    | error e => simp [executeSnipe, snipeFailure]
    | ok tx =>
      cases rc with
      | error e => simp [executeSnipe, snipeFailure]
      | ok ro =>
        cases ro with
        | none => simp [executeSnipe, snipeFailure]
        | some r =>
          by_cases hs : r.status = 1
          · cases tb with
            | error e => simp [executeSnipe, snipeFailure, hs]
            | ok bal =>
              exfalso
              simp [snipeStageFails, exceptThrew, receiptNotOk, hs] at h
          · simp [executeSnipe, snipeFailure, hs]

/-- C2 witness: a buy whose receipt reports failure leaves the position
map unchanged. -/
theorem C2_failed_snipe_no_mutation_witness :
    (executeSnipe true DEFAULT_SNIPER_CONFIG revertedBuyEnv
        [("0xTok", samplePosition)] "0xNew" 3).1.success = false ∧
    (executeSnipe true DEFAULT_SNIPER_CONFIG revertedBuyEnv
        [("0xTok", samplePosition)] "0xNew" 3).2 = [("0xTok", samplePosition)] := by
  have h := C2_failed_snipe_no_mutation true DEFAULT_SNIPER_CONFIG revertedBuyEnv
    [("0xTok", samplePosition)] "0xNew" 3 (by rfl)
  exact ⟨h.1, h.2.2⟩

/-- C5: on a monitoring tick at price p, a pending matching take_profit
order ends executed exactly when p is at least the target, a pending
matching stop_loss order ends executed exactly when p is at most the
target, untriggered orders are returned unchanged (still pending), the
auto-created orders carry targets buyPrice*(1 + tp/100) for take-profit
and buyPrice*(1 - sl/100) for stop-loss, and concretely a buy price of
100 with takeProfitPercent 100 yields target 200, which a tick of 199
does not fire and a tick of 200 fires. -/
theorem C5_tick_firing_and_auto_targets
    (orders : List LimitOrder) (tok : String) (p : ℚ) (now : ℕ) (o : LimitOrder)
    (ho : o ∈ orders) (hm : matchesPendingFor o tok = true) :
    (processOrder o p now ∈ checkLimitOrders orders tok p now ∧
     (o.orderType = OrderType.take_profit →
       ((processOrder o p now).status = OrderStatus.executed ↔ o.targetPricePLS ≤ p)) ∧
     (o.orderType = OrderType.stop_loss →
       ((processOrder o p now).status = OrderStatus.executed ↔ p ≤ o.targetPricePLS)) ∧
     (shouldTrigger o p = false → processOrder o p now = o)) ∧
    (∀ cfg position t ord, ord ∈ createAutoLimitOrders cfg position t →
      ord.status = OrderStatus.pending ∧
      (∀ tp, cfg.takeProfitPercent = some tp → ord.orderType = OrderType.take_profit →
        ord.targetPricePLS = position.buyPricePLS * (1 + tp / 100)) ∧
      (∀ sl, cfg.stopLossPercent = some sl → ord.orderType = OrderType.stop_loss →
        ord.targetPricePLS = position.buyPricePLS * (1 - sl / 100))) ∧
    takeProfitTarget 100 100 = 200 ∧
    shouldTrigger sampleTPOrder 199 = false ∧
    shouldTrigger sampleTPOrder 200 = true := by
  have hpend : o.status = OrderStatus.pending := by
    unfold matchesPendingFor at hm
    simp only [Bool.and_eq_true, beq_iff_eq] at hm
    exact hm.2
  refine ⟨⟨?_, ?_, ?_, ?_⟩, ?_, ?_, ?_, ?_⟩
  · unfold checkLimitOrders
    have hmap := List.mem_map_of_mem
      (fun o => if matchesPendingFor o tok then processOrder o p now else o) ho
    simpa [hm] using hmap
  · intro hty
    unfold processOrder shouldTrigger
    rw [hty]
    by_cases hle : o.targetPricePLS ≤ p
    · simp [hle]
    · simp [hle, hpend]
  · intro hty
    unfold processOrder shouldTrigger
    rw [hty]
    by_cases hle : p ≤ o.targetPricePLS
    · simp [hle]
    · simp [hle, hpend]
  · intro hf
    unfold processOrder
    simp [hf]
  · intro cfg position t ord hmem
    unfold createAutoLimitOrders at hmem
    by_cases hen : cfg.autoSellEnabled = false
    · simp [hen] at hmem
    · rw [if_neg hen] at hmem
      rcases List.mem_append.mp hmem with h1 | h1
      · cases htp : cfg.takeProfitPercent with
        | none => rw [htp] at h1; simp at h1
        | some tp =>
          rw [htp] at h1
          by_cases hz : tp = 0
          · simp [hz] at h1
          · simp only [hz, if_false, List.mem_singleton] at h1
            subst h1
            refine ⟨rfl, ?_, ?_⟩
            · intro tp2 htp2 _
              cases htp2
              simp [mkLimitOrder, takeProfitTarget]
            · intro sl _ hty
              simp [mkLimitOrder] at hty
      · cases hsl : cfg.stopLossPercent with
        | none => rw [hsl] at h1; simp at h1
        | some sl =>
          rw [hsl] at h1
          by_cases hz : sl = 0
          · simp [hz] at h1
          · simp only [hz, if_false, List.mem_singleton] at h1
            subst h1
            refine ⟨rfl, ?_, ?_⟩
            · intro tp htp2 hty
              simp [mkLimitOrder] at hty
            · intro sl2 hsl2 _
              cases hsl2
              simp [mkLimitOrder, stopLossTarget]
  · norm_num [takeProfitTarget]
  · decide
  · decide

/-- C5 witness: the tick at 200 fires the sample take-profit order. -/
theorem C5_tick_firing_witness :
    processOrder sampleTPOrder 200 7 ∈ checkLimitOrders [sampleTPOrder] "0xTok" 200 7 ∧
    (processOrder sampleTPOrder 200 7).status = OrderStatus.executed := by
  have h := C5_tick_firing_and_auto_targets [sampleTPOrder] "0xTok" 200 7 sampleTPOrder
    (by simp) (by rfl)
  exact ⟨h.1.1, (h.1.2.1 rfl).mpr (by norm_num [sampleTPOrder])⟩

/-- C7 counterexample: a confirmed manual sell of the sample position
marks it sold with the sell hash and timestamp, but records neither a
sell price nor a realized profitLossPercent — the field stays none, not
(sellPrice - buyPrice) / buyPrice * 100. -/
theorem C7_counterexample :
    sellToken true [("0xTok", samplePosition)] confirmedSellEnv "0xTok" none 9 =
      Except.ok ("0xsell", [("0xTok", { samplePosition with
        status := PositionStatus.sold
        sellTransactionHash := some "0xsell"
        sellTimestamp := some 9 })]) ∧
    ({ samplePosition with
        status := PositionStatus.sold
        sellTransactionHash := some "0xsell"
        sellTimestamp := some 9 } : TokenPosition).profitLossPercent = none ∧
    ({ samplePosition with
        status := PositionStatus.sold
        sellTransactionHash := some "0xsell"
        sellTimestamp := some 9 } : TokenPosition).sellPricePLS = none := by
  exact ⟨rfl, rfl, rfl⟩

/-- C7 amended: on a confirmed successful sell of a stored position,
sellToken returns the transaction hash and stores the position with
status sold, the sell transaction hash and the sell timestamp — leaving
every other field, in particular profitLossPercent and sellPricePLS,
unchanged (the realized P/L is computed only by the auto-sell engine
path, not by sellToken). -/
theorem C7_amended (positions : List (String × TokenPosition)) (pos : TokenPosition)
    (tok txHash : String) (amount : Option ℚ) (now : ℕ)
    (hpos : getPos positions tok = some pos) :
    sellToken true positions
        { sellTx := Except.ok txHash, receipt := Except.ok (some { status := 1 }) }
        tok amount now =
      Except.ok (txHash, setPosition positions tok
        { pos with
            status := PositionStatus.sold
            sellTransactionHash := some txHash
            sellTimestamp := some now }) ∧
    ({ pos with
        status := PositionStatus.sold
        sellTransactionHash := some txHash
        sellTimestamp := some now } : TokenPosition).profitLossPercent
      = pos.profitLossPercent ∧
    ({ pos with
        status := PositionStatus.sold
        sellTransactionHash := some txHash
        sellTimestamp := some now } : TokenPosition).sellPricePLS = pos.sellPricePLS := by
  refine ⟨?_, rfl, rfl⟩
  unfold sellToken
  cases amount with
  | none => simp [hpos]
  | some a => simp [hpos]

/-- C7 amended witness on the sample position. -/
theorem C7_amended_witness :
    sellToken true [("0xTok", samplePosition)]
        { sellTx := Except.ok "0xsell", receipt := Except.ok (some { status := 1 }) }
        "0xTok" none 9 =
      Except.ok ("0xsell", setPosition [("0xTok", samplePosition)] "0xTok"
        { samplePosition with
            status := PositionStatus.sold
            sellTransactionHash := some "0xsell"
            sellTimestamp := some 9 }) ∧
    ({ samplePosition with
        status := PositionStatus.sold
        sellTransactionHash := some "0xsell"
        sellTimestamp := some 9 } : TokenPosition).profitLossPercent
      = samplePosition.profitLossPercent ∧
    ({ samplePosition with
        status := PositionStatus.sold
        sellTransactionHash := some "0xsell"
        sellTimestamp := some 9 } : TokenPosition).sellPricePLS
      = samplePosition.sellPricePLS :=
  C7_amended [("0xTok", samplePosition)] samplePosition "0xTok" "0xsell" none 9 rfl

/-- C10: getPrice returns the quoted price on success and the string 0 on
any provider or router failure (the whole body is wrapped in the
try/catch that returns 0); consequently, on a tick where the quote
fails, a pending stop_loss order with non-negative target is stored back
executed, while a pending take_profit order with positive target is
returned unchanged. -/
theorem C10_price_failure_semantics (q : ℚ) (o : LimitOrder) (now : ℕ)
    (_hpend : o.status = OrderStatus.pending) :
    getPrice (some q) = q ∧
    getPrice none = 0 ∧
    (o.orderType = OrderType.stop_loss → 0 ≤ o.targetPricePLS →
      (processOrder o (getPrice none) now).status = OrderStatus.executed) ∧
    (o.orderType = OrderType.take_profit → 0 < o.targetPricePLS →
      processOrder o (getPrice none) now = o) := by
  refine ⟨rfl, rfl, ?_, ?_⟩
  · intro hty htgt
    unfold processOrder shouldTrigger getPrice
    rw [hty]
    simp [htgt]
  · intro hty htgt
    unfold processOrder shouldTrigger getPrice
    rw [hty]
    simp [not_le.mpr htgt]

/-- C10 witness: a failed quote fires the sample stop-loss order. -/
theorem C10_price_failure_witness :
    getPrice none = 0 ∧
    (processOrder sampleSLOrder (getPrice none) 7).status = OrderStatus.executed := by
  have h := C10_price_failure_semantics 1 sampleSLOrder 7 rfl
  exact ⟨h.2.1, h.2.2.1 rfl (by norm_num [sampleSLOrder])⟩

/-- C3 evaluation at the failing input: a fired take-profit order whose
delegated sell is submitted but whose receipt reports failure (status 0)
ends with the order marked executed and the portfolio position marked
sold with a realized profit — not with a failed order and a holding
position; meanwhile the engine position map, whose own update is guarded
by the receipt status, still records the position as holding. -/
theorem C3_reverted_limit_sell_divergence :
    (executeLimitOrder true [("0xTok", samplePosition)] [("0xtok", samplePosition)]
        revertedSellEnv sampleFiredTPOrder 200 7).1.status = OrderStatus.executed ∧
    (executeLimitOrder true [("0xTok", samplePosition)] [("0xtok", samplePosition)]
        revertedSellEnv sampleFiredTPOrder 200 7).2.2 =
      [("0xtok", { samplePosition with
          sellPricePLS := some 200
          sellTimestamp := some 7
          sellTransactionHash := some "0xsell"
          status := PositionStatus.sold
          profitLossPercent := some 100 })] ∧
    (executeLimitOrder true [("0xTok", samplePosition)] [("0xtok", samplePosition)]
        revertedSellEnv sampleFiredTPOrder 200 7).2.1 = [("0xTok", samplePosition)] := by
  have heval : executeLimitOrder true [("0xTok", samplePosition)] [("0xtok", samplePosition)]
      revertedSellEnv sampleFiredTPOrder 200 7 =
      ({ sampleFiredTPOrder with transactionHash := some "0xsell" },
       [("0xTok", samplePosition)],
       [("0xtok", { samplePosition with
          sellPricePLS := some 200
          sellTimestamp := some 7
          sellTransactionHash := some "0xsell"
          status := PositionStatus.sold
          profitLossPercent :=
            some ((200 - samplePosition.buyPricePLS) / samplePosition.buyPricePLS * 100) })]) := by
    rfl
  rw [heval]
  refine ⟨rfl, ?_, rfl⟩
  norm_num [samplePosition]

/-- C1 counterexample: the trace of the fired sample take-profit order
contains the state (executed, notSubmitted) — the monitor marks the
order executed before the sell is submitted — and when the sell is
submitted but its receipt reports failure, the final state still carries
status executed. -/
theorem C1_counterexample :
    (OrderStatus.executed, SellPhase.notSubmitted) ∈
      firedOrderTrace true [("0xTok", samplePosition)] [("0xtok", samplePosition)]
        sampleTPOrder 200 7 SellOutcome.throws ∧
    (firedOrderTrace true [("0xTok", samplePosition)] [("0xtok", samplePosition)]
        sampleTPOrder 200 7 (SellOutcome.revertedReceipt "0xsell")).getLast? =
      some (OrderStatus.executed, SellPhase.confirmedFail) := by
  exact ⟨by decide, by rfl⟩

/-- C1 amended: when a limit order fires, checkLimitOrders stores it back
executed immediately — before the delegated sell has been submitted or
confirmed; the exit-engine continuation then overwrites the status to
failed exactly when the sell attempt throws, while a submitted sell,
even one whose receipt reports failure, leaves the order executed. -/
theorem C1_amended_fired_order_lifecycle
    (enginePositions pf : List (String × TokenPosition)) (order : LimitOrder)
    (p : ℚ) (now : ℕ) (outcome : SellOutcome) (position : TokenPosition)
    (hfire : shouldTrigger order p = true)
    (hpos : pfGetPosition pf order.tokenAddress = some position) :
    (OrderStatus.executed, SellPhase.notSubmitted) ∈
      firedOrderTrace true enginePositions pf order p now outcome ∧
    (firedOrderTrace true enginePositions pf order p now outcome).getLast? =
      some ((match outcome with
             | SellOutcome.throws => OrderStatus.failed
             | SellOutcome.revertedReceipt _ => OrderStatus.executed
             | SellOutcome.confirmed _ => OrderStatus.executed),
            outcomePhase outcome) := by
  have hfired : (processOrder order p now).status = OrderStatus.executed := by
    unfold processOrder
    simp [hfire]
  have htok : (processOrder order p now).tokenAddress = order.tokenAddress := by
    unfold processOrder
    split <;> rfl
  constructor
  · simp [firedOrderTrace, hfired]
  · cases outcome with
    | throws =>
      simp only [firedOrderTrace, executeLimitOrder]
      rw [htok, hpos]
      simp [outcomeEnv, sellToken, outcomePhase]
    | revertedReceipt h =>
      simp only [firedOrderTrace, executeLimitOrder]
      rw [htok, hpos]
      simp [outcomeEnv, sellToken, outcomePhase]
      cases getPos enginePositions order.tokenAddress <;> simp
    | confirmed h =>
      simp only [firedOrderTrace, executeLimitOrder]
      rw [htok, hpos]
      simp [outcomeEnv, sellToken, outcomePhase]
      cases getPos enginePositions order.tokenAddress <;> simp

/-- C1 amended witness: the fired sample order with a confirmed sell. -/
theorem C1_amended_fired_order_lifecycle_witness :
    (OrderStatus.executed, SellPhase.notSubmitted) ∈
      firedOrderTrace true [("0xTok", samplePosition)] [("0xtok", samplePosition)]
        sampleTPOrder 200 7 (SellOutcome.confirmed "0xsell2") ∧
    (firedOrderTrace true [("0xTok", samplePosition)] [("0xtok", samplePosition)]
        sampleTPOrder 200 7 (SellOutcome.confirmed "0xsell2")).getLast? =
      some (OrderStatus.executed, SellPhase.confirmedOk) :=
  C1_amended_fired_order_lifecycle [("0xTok", samplePosition)] [("0xtok", samplePosition)]
    sampleTPOrder 200 7 (SellOutcome.confirmed "0xsell2") samplePosition
    (by decide) (by rfl)
